import Mathlib

/-!
# Verification of the evt video-transcript extraction pipeline

Shallow embedding of the TypeScript source of the `evt` repository:
the URL resolver, metadata fetcher, audio acquirer, transcription
adapter, the guest extraction route, and the subtitle exporter.

External collaborators (the `yt-dlp` downloader, the OpenAI Whisper
API, the quota store, the filesystem and the WHATWG URL parser) are
modelled as explicit oracle inputs / small state models; everything
the repository's own code does is translated function by function.
All durations are rationals (JS numbers, exact on the inputs used).
-/

/- Batteries marks the rational-number field operations irreducible;
restore default reducibility so that concrete runs of the embedded
code evaluate inside `decide` / `rfl` proofs. -/
set_option allowUnsafeReducibility true in
attribute [semireducible] Rat.add Rat.sub Rat.mul Rat.div Rat.inv Rat.ofScientific

namespace Evt

/-! ## String helpers

Kernel-reducible (structural) models of the JS string operations the
source uses; the core library versions of `splitOn`, `toLower` and
`trim` recurse on byte positions and do not evaluate inside proofs. -/

/-- JS `haystack.includes(needle)` : substring containment, over char lists. -/
def containsSub (pat : List Char) : List Char → Bool
  | [] => pat.isEmpty
  | c :: tl => pat.isPrefixOf (c :: tl) || containsSub pat tl

/-- JS `s.includes(pat)`. -/
def strContains (s pat : String) : Bool := containsSub pat.toList s.toList

/-- JS `s.padStart(n, c)`. -/
def padStart (s : String) (n : Nat) (c : Char) : String :=
  if n ≤ s.length then s else String.mk (List.replicate (n - s.length) c) ++ s

/-- Split on the first occurrence of a non-empty separator:
    `some (before, after)` or `none` when the separator is absent. -/
def breakOnSub (sep : List Char) : List Char → Option (List Char × List Char)
  | [] => none
  | c :: tl =>
    if sep.isPrefixOf (c :: tl) then some ([], (c :: tl).drop sep.length)
    else
      match breakOnSub sep tl with
      | some (pre, post) => some (c :: pre, post)
      | none => none

/-- Split on every occurrence of a single separator character
    (JS `s.split(sep)` semantics: `n` separators give `n + 1` parts). -/
def splitOnChar (sep : Char) : List Char → List (List Char)
  | [] => [[]]
  | c :: tl =>
    if c = sep then [] :: splitOnChar sep tl
    else
      match splitOnChar sep tl with
      | [] => [[c]]
      | h :: t => (c :: h) :: t

/-- JS `s.toLowerCase()` on the ASCII strings the source handles. -/
def jsToLower (s : String) : String := String.mk (s.toList.map Char.toLower)

/-- JS `s.trim()`: strip leading and trailing whitespace. -/
def jsTrim (s : String) : String :=
  String.mk (((s.toList.dropWhile Char.isWhitespace).reverse.dropWhile Char.isWhitespace).reverse)

/-! ## Model of the WHATWG URL parser (`new URL`) as used by the source

The source only reads `protocol`, `hostname`, `pathname` and
`searchParams` of parsed http(s)-style URLs.  We model the parser on
the `scheme://host/path?query` fragment of the grammar: an alphabetic
scheme followed by `://`, a non-empty host (lowercased, as `new URL`
does), a path defaulting to `/`, and a query string.  A string with
no such scheme separator fails to parse (JS: `new URL` throws). -/

structure URLParts where
  protocol : String
  hostname : String
  pathname : String
  query : String
  deriving Repr, DecidableEq

def parseURL (s : String) : Option URLParts :=
  match breakOnSub "://".toList s.toList with
  | some (schemeChars, after) =>
    let scheme := jsToLower (String.mk schemeChars)
    if scheme ≠ "" ∧ scheme.toList.all (fun c => c.isAlpha) then
      let host := after.takeWhile (fun c => c ≠ '/' ∧ c ≠ '?' ∧ c ≠ '#')
      if host.isEmpty then none
      else
        let more := after.drop host.length
        let path := more.takeWhile (fun c => c ≠ '?' ∧ c ≠ '#')
        let query :=
          match more.drop path.length with
          | '?' :: qs => String.mk (qs.takeWhile (fun c => c ≠ '#'))
          | _ => ""
        some { protocol := scheme ++ ":",
               hostname := jsToLower (String.mk host),
               pathname := if path.isEmpty then "/" else String.mk path,
               query := query }
    else none
  | none => none

/-- Model of `searchParams`: split the query on `&`, each entry `k=v`
    (key is everything before the first `=`). -/
def queryEntries (query : String) : List (String × String) :=
  (splitOnChar '&' query.toList).filterMap fun kv =>
    if kv.isEmpty then none
    else
      match breakOnSub ['='] kv with
      | some (k, v) => some (String.mk k, String.mk v)
      | none => some (String.mk kv, "")

/-- JS `url.searchParams.has(k)`. -/
def searchParamHas (query k : String) : Bool :=
  (queryEntries query).any (fun e => e.1 = k)

/-- JS `url.searchParams.get(k)` (first value, `none` when absent). -/
def searchParamGet (query k : String) : Option String :=
  ((queryEntries query).find? (fun e => e.1 = k)).map (·.2)

/-! ## shared/types.ts : `VideoPlatform` -/

inductive VideoPlatform
  | youtube
  | bilibili
  | redbook
  deriving Repr, DecidableEq

/-! ## api/utils/videoProcessor.ts : URL resolver -/

/-- Source `detectPlatform` (videoProcessor.ts lines 43-57).  Every branch —
    youtube, the vimeo / dailymotion / twitch fallbacks, and the
    default — returns `'youtube'`. -/
def detectPlatform (url : String) : VideoPlatform :=
  let urlLower := jsToLower url
  if strContains urlLower "youtube.com" || strContains urlLower "youtu.be" then
    .youtube
  else if strContains urlLower "vimeo.com" then
    .youtube
  else if strContains urlLower "dailymotion.com" then
    .youtube
  else if strContains urlLower "twitch.tv" then
    .youtube
  else
    .youtube

/-- Regex `/\/video\/(BV[a-zA-Z0-9]{10}|av\d+)/` applied to a
    pathname: first match of the captured group, scanning left to
    right. -/
def bvAvMatchAt (l : List Char) : Option String :=
  match l with
  | 'B' :: 'V' :: rest =>
    if 10 ≤ rest.length ∧ (rest.take 10).all (fun c => c.isAlpha || c.isDigit) then
      some ("BV" ++ String.mk (rest.take 10))
    else none
  | 'a' :: 'v' :: rest =>
    let ds := rest.takeWhile Char.isDigit
    if ds.isEmpty then none else some ("av" ++ String.mk ds)
  | _ => none

def findBiliId : List Char → Option String
  | [] => none
  | c :: tl =>
    if (c :: tl).take 7 = "/video/".toList then
      match bvAvMatchAt ((c :: tl).drop 7) with
      | some vid => some vid
      | none => findBiliId tl
    else findBiliId tl

/-- Regex `/\/explore\/([a-zA-Z0-9]+)/` applied to a pathname. -/
def findRedbookId : List Char → Option String
  | [] => none
  | c :: tl =>
    if (c :: tl).take 9 = "/explore/".toList then
      let grabbed := ((c :: tl).drop 9).takeWhile (fun ch => ch.isAlpha || ch.isDigit)
      if grabbed.isEmpty then findRedbookId tl else some (String.mk grabbed)
    else findRedbookId tl

structure ValidationResult where
  isValid : Bool
  error : Option String
  deriving Repr, DecidableEq

/-- Source `validateVideoUrl` (videoProcessor.ts lines 69-114). -/
def validateVideoUrl (url : String) : ValidationResult :=
  if url = "" then ⟨false, some "URL is required"⟩
  else
    match parseURL url with
    | none => ⟨false, some "Invalid URL format"⟩
    | some u =>
      let platform := detectPlatform url
      if ¬(u.protocol = "http:" ∨ u.protocol = "https:") then
        ⟨false, some "URL must use HTTP or HTTPS protocol"⟩
      else
        match platform with
        | .youtube =>
          if (strContains u.hostname "youtube.com" && searchParamHas u.query "v")
              || strContains u.hostname "youtu.be" then
            ⟨true, none⟩
          else ⟨false, some "Invalid YouTube URL format"⟩
        | .bilibili =>
          if strContains u.hostname "bilibili.com" && (findBiliId u.pathname.toList).isSome then
            ⟨true, none⟩
          else ⟨false, some "Invalid Bilibili URL format"⟩
        | .redbook =>
          if strContains u.hostname "xiaohongshu.com" || strContains u.hostname "xhslink.com" then
            ⟨true, none⟩
          else ⟨false, some "Invalid Redbook URL format"⟩

/-- Source `isValidVideoUrl` (videoProcessor.ts lines 62-64). -/
def isValidVideoUrl (url : String) : Bool := (validateVideoUrl url).isValid

/-- Source `extractVideoId` (videoProcessor.ts lines 121-148). -/
def extractVideoId (url : String) : String :=
  let platform := detectPlatform url
  match parseURL url with
  | none => url
  | some u =>
    match platform with
    | .youtube =>
      if strContains u.hostname "youtu.be" then u.pathname.drop 1
      else ((searchParamGet u.query "v").getD "")
    | .bilibili => (findBiliId u.pathname.toList).getD ""
    | .redbook => (findRedbookId u.pathname.toList).getD ""

/-! ## Numeric helpers (JS arithmetic on non-negative numbers) -/

/-- JS `Math.floor` on the rational model of JS numbers. -/
def mathFloor (q : ℚ) : ℤ := q.floor

/-- JS `a % b` for `a ≥ 0`, `b > 0` (remainder). -/
def jsMod (a b : ℚ) : ℚ := a - b * (mathFloor (a / b) : ℚ)

/-- JS `Math.round` (half away from zero for the non-negative inputs used). -/
def jsRound (q : ℚ) : ℤ := mathFloor (q + 1/2)

/-- JS `x.toFixed(2)` for non-negative `x` (rounding half up). -/
def toFixed2 (q : ℚ) : String :=
  let c : ℤ := jsRound (q * 100)
  toString (c / 100) ++ "." ++ padStart (toString ((c % 100).natAbs)) 2 '0'

/-! ## shared/types.ts : transcript shapes -/

structure TranscriptSegment where
  start : ℚ
  «end» : ℚ
  text : String
  deriving Repr, DecidableEq

structure Transcript where
  text : String
  segments : List TranscriptSegment
  deriving Repr, DecidableEq

/-- Join of segment texts with a single space — the §3 join invariant. -/
def joinSegmentTexts (segments : List TranscriptSegment) : String :=
  String.intercalate " " (segments.map (·.text))

/-! ## api/routes/export.ts : format exporter -/

inductive ExportFormat
  | txt
  | srt
  | vtt
  | json
  deriving Repr, DecidableEq

/-- Source `formatSRTTime` (export.ts lines 46-53): `HH:MM:SS,mmm`. -/
def formatSRTTime (seconds : ℚ) : String :=
  let hours : ℤ := mathFloor (seconds / 3600)
  let minutes : ℤ := mathFloor (jsMod seconds 3600 / 60)
  let secs : ℤ := mathFloor (jsMod seconds 60)
  let milliseconds : ℤ := mathFloor (jsMod seconds 1 * 1000)
  padStart (toString hours) 2 '0' ++ ":" ++ padStart (toString minutes) 2 '0' ++ ":"
    ++ padStart (toString secs) 2 '0' ++ "," ++ padStart (toString milliseconds) 3 '0'

/-- Source `formatVTTTime` (export.ts lines 56-63): `HH:MM:SS.mmm`. -/
def formatVTTTime (seconds : ℚ) : String :=
  let hours : ℤ := mathFloor (seconds / 3600)
  let minutes : ℤ := mathFloor (jsMod seconds 3600 / 60)
  let secs : ℤ := mathFloor (jsMod seconds 60)
  let milliseconds : ℤ := mathFloor (jsMod seconds 1 * 1000)
  padStart (toString hours) 2 '0' ++ ":" ++ padStart (toString minutes) 2 '0' ++ ":"
    ++ padStart (toString secs) 2 '0' ++ "." ++ padStart (toString milliseconds) 3 '0'

/-- Minimal JSON string escaping used by the `json` branch model. -/
def jsonEscape (s : String) : String :=
  String.join (s.toList.map fun c =>
    if c = '"' then "\\\"" else if c = '\\' then "\\\\"
    else if c = '\n' then "\\n" else String.singleton c)

/-- Rendering of a JS number in JSON output (integral values only need
    exact rendering for the inputs used; other rationals are kept as
    `num/den` — nothing proved depends on this branch). -/
def jsNumToString (q : ℚ) : String :=
  if q.den = 1 then toString q.num else toString q.num ++ "/" ++ toString q.den

/-- Model of `JSON.stringify({text, segments, metadata}, null, 2)` for
    the fixed shape of the `json` export branch; `exportedAt` stands
    for `new Date().toISOString()`.  No claim depends on this byte
    layout. -/
def jsonExport (text : String) (segments : List TranscriptSegment) (exportedAt : String) : String :=
  "\x7b\n  \"text\": \"" ++ jsonEscape text ++ "\",\n  \"segments\": [" ++
    String.intercalate "," (segments.map fun s =>
      "\x7b\"start\": " ++ jsNumToString s.start ++ ", \"end\": " ++ jsNumToString s.«end» ++
        ", \"text\": \"" ++ jsonEscape s.text ++ "\"\x7d") ++
    "],\n  \"metadata\": \x7b\n    \"format\": \"json\",\n    \"exported_at\": \"" ++
    exportedAt ++ "\"\n  \x7d\n\x7d"

/-- Source `formatTranscript` (export.ts lines 9-43).  `exportedAt` threads the
    impure `new Date().toISOString()` of the `json` branch.  JS falsy
    checks `segment.start || 0` and `segment.end || segment.start + 5`
    are modelled on the number domain (`0` is the only falsy value). -/
def formatTranscript (text : String) (segments : List TranscriptSegment)
    (format : ExportFormat) (exportedAt : String) : String :=
  match format with
  | .txt => text
  | .srt =>
    String.intercalate "\n" (segments.mapIdx fun index segment =>
      let startTime := formatSRTTime segment.start
      let endTime := formatSRTTime (if segment.«end» = 0 then segment.start + 5 else segment.«end»)
      toString (index + 1) ++ "\n" ++ startTime ++ " --> " ++ endTime ++ "\n" ++ segment.text ++ "\n")
  | .vtt =>
    let vttHeader := "WEBVTT\n\n"
    let vttContent := String.intercalate "\n" (segments.map fun segment =>
      let startTime := formatVTTTime segment.start
      let endTime := formatVTTTime (if segment.«end» = 0 then segment.start + 5 else segment.«end»)
      startTime ++ " --> " ++ endTime ++ "\n" ++ segment.text ++ "\n")
    vttHeader ++ vttContent
  | .json => jsonExport text segments exportedAt

/-! ## api/utils/transcriptionService.ts

Two variants of the service exist in the repository.  The engine
(OpenAI Whisper) is an external collaborator: its outcome is an
explicit oracle input (`Except` of an error message or a verbose-json
response). -/

/-- Whisper verbose-json response shape as read by the source (the
    SDK always supplies `text`). -/
structure EngineResponse where
  text : String
  language : Option String
  duration : Option ℚ
  segments : Option (List TranscriptSegment)
  deriving Repr, DecidableEq

/-- First-variant result shape (`TranscriptionResult` with mandatory
    segments). -/
structure TranscriptionResultV1 where
  text : String
  segments : List TranscriptSegment
  deriving Repr, DecidableEq

/-- Normalization step of the first `transcribeAudio` variant
    (transcriptionService.ts lines 53-79): map engine segments with
    trimmed text; if none and the engine text is truthy (non-empty),
    synthesize a single segment `start = 0`, `end = 0`; `full_text` is
    `response.text || ''`, the identity on strings. -/
def normalizeResponseV1 (response : EngineResponse) : TranscriptionResultV1 :=
  let segments := (response.segments.getD []).map fun s => { s with text := jsTrim s.text }
  let textVal := response.text
  let segments :=
    if segments.isEmpty ∧ textVal ≠ "" then
      [{ start := 0, «end» := 0, text := jsTrim textVal }]
    else segments
  { text := textVal, segments := segments }

/-- Error translation of the first variant's catch block. -/
def translateErrorV1 (msg : String) : String :=
  if strContains msg "API key" then "Invalid OpenAI API key. Please check your configuration."
  else if strContains msg "quota" then "OpenAI API quota exceeded. Please check your usage limits."
  else if strContains msg "file" then "Audio file format not supported or file is corrupted."
  else "Transcription failed: " ++ msg

/-- First `transcribeAudio` variant (transcriptionService.ts lines
    29-98) as a function of the engine call's outcome. -/
def transcribeAudioV1 (engine : Except String EngineResponse) : Except String TranscriptionResultV1 :=
  match engine with
  | .ok response => .ok (normalizeResponseV1 response)
  | .error msg => .error (translateErrorV1 msg)

/-- Options record of the second `transcribeAudio` variant. -/
structure TranscribeOptions where
  language : Option String
  prompt : Option String
  temperature : Option ℚ
  maxDuration : Option ℚ
  deriving Repr, DecidableEq

/-- Second-variant result shape. -/
structure TranscriptionResultV2 where
  text : String
  language : Option String
  duration : Option ℚ
  segments : Option (List TranscriptSegment)
  deriving Repr, DecidableEq

/-- Node `path.extname` on the paths used (extension of the last path
    component, including the dot). -/
def extname (p : String) : String :=
  let base := (splitOnChar '/' p.toList).getLastD []
  let parts := splitOnChar '.' base
  if parts.length ≤ 1 then "" else "." ++ String.mk (parts.getLastD [])

def supportedFormatsV2 : List String :=
  [".mp3", ".mp4", ".mpeg", ".mpga", ".m4a", ".wav", ".webm"]

/-- Error translation of the second variant's catch block (unmatched
    errors are rethrown unchanged). -/
def translateErrorV2 (msg : String) : String :=
  if strContains msg "API key" then "OpenAI API key is invalid or missing. Please check your configuration."
  else if strContains msg "quota" then "OpenAI API quota exceeded. Please check your usage limits."
  else if strContains msg "rate limit" then "OpenAI API rate limit exceeded. Please try again later."
  else msg

/-- Second `transcribeAudio` variant (transcriptionService.ts lines
    229-310): existence, 25 MB and extension preconditions, then the
    engine call, whose segments are mapped verbatim.  The
    `options.maxDuration` field is accepted but never read by the
    body.  `fileExists` / `sizeBytes` model the filesystem state at
    `audioPath`. -/
def transcribeAudioV2 (audioPath : String) (fileExists : Bool) (sizeBytes : ℕ)
    (options : TranscribeOptions) (engine : Except String EngineResponse) :
    Except String TranscriptionResultV2 :=
  let raw : Except String TranscriptionResultV2 :=
    if fileExists = false then
      .error ("Audio file not found: " ++ audioPath)
    else
      let fileSizeMB : ℚ := (sizeBytes : ℚ) / (1024 * 1024)
      if 25 < fileSizeMB then
        .error ("File size (" ++ toFixed2 fileSizeMB ++ "MB) exceeds OpenAI\x27s 25MB limit")
      else
        let fileExtension := jsToLower (extname audioPath)
        if supportedFormatsV2.contains fileExtension = false then
          .error ("Unsupported audio format: " ++ fileExtension ++ ". Supported formats: "
            ++ String.intercalate ", " supportedFormatsV2)
        else
          match engine with
          | .ok transcription =>
            .ok { text := transcription.text,
                  language := transcription.language,
                  duration := transcription.duration,
                  segments := transcription.segments.map
                    (·.map fun s => { start := s.start, «end» := s.«end», text := s.text }) }
          | .error e => .error e
  match raw with
  | .ok r => .ok r
  | .error e => .error (translateErrorV2 e)

/-- Clamp the final segment's end to the limit if it overruns (helper
    for the spec-prescribed truncation below). -/
def clampLastSegment (limit : ℚ) : List TranscriptSegment → List TranscriptSegment
  | [] => []
  | [s] => [if limit < s.«end» then { s with «end» := limit } else s]
  | s :: rest => s :: clampLastSegment limit rest

/-- Modelled from the spec (§4.3): the truncation the spec prescribes
    for `max_duration_seconds` — keep exactly the segments whose start
    is strictly below the limit and clamp the final retained segment's
    end to the limit.  Used only to compare the source behavior
    against the spec's words. -/
def specTruncateSegments (limit : ℚ) (segments : List TranscriptSegment) : List TranscriptSegment :=
  clampLastSegment limit (segments.filter fun s => decide (s.start < limit))

/-! ## Filesystem model for the cleanup closure (C2)

`existsSync` / `unlinkSync` over a finite set of existing paths.
`unlinkSync` on a missing path raises (Node: `ENOENT`); the cleanup
closure guards it with `existsSync`, which is what makes it total. -/

def existsSyncF (fs : Finset String) (p : String) : Bool := decide (p ∈ fs)

def unlinkSyncF (fs : Finset String) (p : String) : Except String (Finset String) :=
  if p ∈ fs then .ok (fs.erase p) else .error "ENOENT: no such file or directory"

/-- The `cleanup` closure returned by `AudioExtractor.extractAudio`
    (audioExtractor.ts lines 113-117):
    `if (existsSync(audioPath)) unlinkSync(audioPath)`. -/
def cleanupClosure (audioPath : String) (fs : Finset String) : Except String (Finset String) :=
  if existsSyncF fs audioPath then unlinkSyncF fs audioPath else .ok fs

/-! ## api/utils/audioExtractor.ts : `extractAudio` (C8)

Oracles: the `getVideoInfo` outcome, the `yt-dlp` process outcome
(`.error` = process `error` event, `.ok code` = exit code), and
`written` — the size of the file the downloader left at the fresh
temp path (`none` = no file).  `finalFile` is the file state at that
path when the call returns or throws. -/

structure DownloaderInfo where
  title : Option String
  duration : Option ℚ
  deriving Repr, DecidableEq

structure AudioArtifactData where
  audioPath : String
  duration : ℚ
  title : String
  deriving Repr, DecidableEq

structure ExtractAudioOutcome where
  result : Except String AudioArtifactData
  finalFile : Option ℕ
  deriving Repr

/-- Source `AudioExtractor.extractAudio` (audioExtractor.ts lines 64-126).
    The temp path is a fresh UUID name, so it does not pre-exist; the
    catch block deletes whatever the failed attempt left there. -/
def extractAudio (audioPath : String) (info : Except String DownloaderInfo)
    (execResult : Except String ℤ) (written : Option ℕ) : ExtractAudioOutcome :=
  match info with
  | .error e => { result := .error e, finalFile := none }
  | .ok videoInfo =>
    match execResult with
    | .error e => { result := .error e, finalFile := none }
    | .ok code =>
      if code ≠ 0 then
        { result := .error ("yt-dlp process exited with code " ++ toString code),
          finalFile := none }
      else
        match written with
        | none => { result := .error "Audio file was not created", finalFile := none }
        | some sz =>
          { result := .ok { audioPath := audioPath,
                            duration := videoInfo.duration.getD 0,
                            title := videoInfo.title.getD "Unknown" },
            finalFile := some sz }

/-! ## api/utils/videoProcessor.ts : metadata probe and orchestrator -/

structure VideoInfo where
  title : String
  duration : ℚ
  thumbnail : Option String
  deriving Repr, DecidableEq

/-- The `platformTitles` record lookup (videoProcessor.ts lines
    167-171); every platform value has an entry, so the
    template-string fallback after `||` is unreachable. -/
def platformTitle : VideoPlatform → String
  | .youtube => "YouTube Video"
  | .bilibili => "Bilibili Video"
  | .redbook => "Redbook Video"

/-- Source `extractVideoInfo` (videoProcessor.ts lines 153-179): returns the
    downloader's metadata, or on any error the fabricated fallback
    metadata (title from the platform, 300 seconds, placeholder
    thumbnail). -/
def extractVideoInfo (url : String) (outcome : Except String VideoInfo) : VideoInfo :=
  match outcome with
  | .ok info => info
  | .error _ =>
    { title := platformTitle (detectPlatform url),
      duration := 300,
      thumbnail := some "https://via.placeholder.com/320x180?text=Video" }

/-- Observable effects of one orchestrator / route run, in order. -/
inductive Ev
  | quotaCheck
  | infoProbe
  | availCheck
  | acquireAttempt
  | acquireSuccess
  | transcribeAttempt
  | cleanup
  | quotaIncrement
  deriving Repr, DecidableEq

/-- The fallback transcript built by `extractTranscript`'s catch block
    (videoProcessor.ts lines 263-280). -/
def fallbackTranscript (errorMessage : String) : Transcript :=
  let fallbackText := "Transcript extraction failed: " ++ errorMessage
    ++ ". This is a mock transcript for demonstration purposes."
  { text := fallbackText, segments := [{ start := 0, «end» := 30, text := fallbackText }] }

/-- The guest duration-limit message thrown at videoProcessor.ts line
    232. -/
def durationLimitMsg (duration maxDuration : ℚ) : String :=
  "Video duration (" ++ toString (jsRound duration) ++ "s) exceeds guest limit of "
    ++ toString (jsRound maxDuration) ++ "s"

/-- Source `extractTranscript` (videoProcessor.ts lines 184-281) as a
    function of the oracle outcomes: availability of the audio
    extractor, the `extractAudio` outcome, and the transcription
    outcome.  Returns the transcript (the catch-all fallback makes the
    function total) together with the ordered effect trace; the inner
    `finally` runs `cleanup` whenever acquisition succeeded. -/
def extractTranscriptRun (avail : Bool) (acquire : Except String AudioArtifactData)
    (transcribe : Except String TranscriptionResultV2)
    (maxDuration : ℚ) (isGuest : Bool) : Transcript × List Ev :=
  if avail = false then
    (fallbackTranscript "Audio extraction not available in this environment", [.availCheck])
  else
    match acquire with
    | .error e => (fallbackTranscript e, [.availCheck, .acquireAttempt])
    | .ok audioResult =>
      if isGuest = true ∧ maxDuration < audioResult.duration then
        (fallbackTranscript (durationLimitMsg audioResult.duration maxDuration),
         [.availCheck, .acquireAttempt, .acquireSuccess, .cleanup])
      else
        match transcribe with
        | .error e =>
          (fallbackTranscript e,
           [.availCheck, .acquireAttempt, .acquireSuccess, .transcribeAttempt, .cleanup])
        | .ok transcriptionResult =>
          ({ text := transcriptionResult.text,
             segments := transcriptionResult.segments.getD [] },
           [.availCheck, .acquireAttempt, .acquireSuccess, .transcribeAttempt, .cleanup])

/-! ## api/routes/extract.ts : the guest extraction route (C1, C7)

The quota store (`check_guest_usage` / `increment_guest_usage` RPCs)
is the external collaborator; its check result is an input and its
increment would show up as a trace event. -/

structure GuestUsage where
  can_extract : Bool
  remaining_extractions : ℤ
  reset_time : String
  deriving Repr, DecidableEq

inductive GuestRouteRes
  | badRequest (error : String)
  | tooMany (error : String) (remaining : ℤ) (reset : String)
  | durationLimited (error : String) (duration : ℚ) (limit : ℚ)
  | success (transcript : Transcript) (remainingAfter : ℤ) (reset : String)
  | serverError (error : String)
  deriving Repr, DecidableEq

/-- The guest branch of `router.post('/guest')` (extract.ts lines
    13-103): URL validation, then the policy check, then the call
    `processGuestVideo(video_url, clientIP)` at line 54.  The only
    `processGuestVideo` (videoProcessor.ts line 286) has signature
    `(videoUrl, progressCallback?)`, so the client-IP string lands in
    `progressCallback` and the first statement of its body,
    `progressCallback?.('Initializing...', 'initializing', 25)`,
    throws a TypeError before any metadata probe or download (an
    optional call only skips nullish values, and a string is not
    callable; independently, `result.videoInfo` read at extract.ts
    line 57 does not exist on `ProcessingResult`, whose field is
    `metadata`).  The rethrown error is caught at line 100 and
    answered with a 500 carrying the message.  The 60-second duration
    check (lines 57-64), the `increment_guest_usage` call (lines
    67-68) and the success response are therefore unreachable dead
    code: `GuestRouteRes.durationLimited` and `GuestRouteRes.success`
    model those dead response shapes and are never produced. -/
def extractGuestRoute (video_url : String) (usage : GuestUsage) : GuestRouteRes × List Ev :=
  if video_url = "" then
    (.badRequest "Video URL is required", [])
  else
    let validation := validateVideoUrl video_url
    if validation.isValid = false then
      (.badRequest (validation.error.getD "Invalid video URL format"), [])
    else if usage.can_extract = false then
      (.tooMany "Daily limit reached. Guest users can extract 1 video per day."
        usage.remaining_extractions usage.reset_time, [.quotaCheck])
    else
      (.serverError "progressCallback is not a function", [.quotaCheck])

/-! ## supabase extract-guest edge function (src/unnamed/part_009)

The other guest entry point cited by the quota claim.  Its processing
block (metadata fetch, audio-URL selection, chunk download, Whisper
call) is the external part, given as one oracle outcome; everything
from the extraction record construction through the unconditional
usage update follows the source. -/

/-- Values the edge function's try block has computed right before it
    builds the extraction record (part_009 lines 135-151). -/
structure EdgeProcessed where
  title : Option String
  duration : Option ℚ
  text : Option String
  segments : Option (List TranscriptSegment)
  deriving Repr, DecidableEq

/-- The extraction record returned to the caller. -/
structure EdgeExtraction where
  video_title : String
  video_duration : ℚ
  transcript_text : String
  transcript_segments : List TranscriptSegment
  status : String
  deriving Repr, DecidableEq

/-- The fallback record built by the edge function's catch block
    (part_009 lines 164-191). -/
def edgeFallbackExtraction (errorMessage : String) : EdgeExtraction :=
  { video_title := "Processing Failed - Using Fallback",
    video_duration := 120,
    transcript_text := "Video processing failed: " ++ errorMessage
      ++ ". This is fallback mock data. Please check the Edge Function logs for details.",
    transcript_segments :=
      [{ start := 0, «end» := 5,
         text := "Video processing failed. This is fallback mock data." },
       { start := 5, «end» := 15,
         text := "Please check the Edge Function configuration and try again." }],
    status := "completed" }

inductive EdgeRouteRes
  | badRequest (error : String)
  | tooMany (error : String) (remaining : ℤ)
  | ok (extraction : EdgeExtraction) (remaining : ℤ)
  deriving Repr, DecidableEq

/-- The extract-guest edge function (part_009): missing URL check,
    guest-usage read (`extraction_count || 0`), the daily-limit gate
    at 3, the processed-or-fallback extraction, and then — on both the
    genuine and the fallback path — the usage update
    `extraction_count := currentCount + 1` (lines 194-212) before the
    200 response with `remaining = max(0, 3 - (currentCount + 1))`. -/
def extractGuestEdge (video_url : String) (currentCount : ℕ)
    (processing : Except String EdgeProcessed) : EdgeRouteRes × List Ev :=
  if video_url = "" then
    (.badRequest "Video URL is required", [])
  else
    let dailyLimit : ℕ := 3
    if dailyLimit ≤ currentCount then
      (.tooMany "Daily extraction limit reached for guest users" 0, [.quotaCheck])
    else
      let extraction :=
        match processing with
        | .ok p =>
          { video_title := p.title.getD "Unknown Title",
            video_duration := min (p.duration.getD 0) 60,
            transcript_text := p.text.getD "",
            transcript_segments := p.segments.getD [],
            status := "completed" }
        | .error e => edgeFallbackExtraction e
      (.ok extraction (max 0 ((dailyLimit : ℤ) - ((currentCount : ℤ) + 1))),
       [.quotaCheck, .quotaIncrement])

/-! ## Shared helper lemmas -/

/-- Every branch of `detectPlatform` returns `youtube`; the bilibili
    and redbook arms of `validateVideoUrl` / `extractVideoId` are
    unreachable. -/
theorem detectPlatform_eq_youtube (url : String) :
    detectPlatform url = VideoPlatform.youtube := by
  simp [detectPlatform]

/-- The effect trace of one `extractTranscript` run is one of four
    concrete lists, one per exit path. -/
theorem extractTranscriptRun_trace (avail : Bool) (acq : Except String AudioArtifactData)
    (tr : Except String TranscriptionResultV2) (md : ℚ) (g : Bool) :
    (extractTranscriptRun avail acq tr md g).2 = [.availCheck]
    ∨ (extractTranscriptRun avail acq tr md g).2 = [.availCheck, .acquireAttempt]
    ∨ (extractTranscriptRun avail acq tr md g).2 =
        [.availCheck, .acquireAttempt, .acquireSuccess, .cleanup]
    ∨ (extractTranscriptRun avail acq tr md g).2 =
        [.availCheck, .acquireAttempt, .acquireSuccess, .transcribeAttempt, .cleanup] := by
  by_cases ha : avail = false
  · simp [extractTranscriptRun, ha]
  · cases acq with
    | error e => simp [extractTranscriptRun, ha]
    | ok a =>
      by_cases hg : g = true ∧ md < a.duration
      · simp [extractTranscriptRun, ha, hg]
      · cases tr <;> simp [extractTranscriptRun, ha, hg]

/-- An `extractTranscript` run never touches the quota store. -/
theorem quotaIncrement_not_mem_run (avail : Bool) (acq : Except String AudioArtifactData)
    (tr : Except String TranscriptionResultV2) (md : ℚ) (g : Bool) :
    Ev.quotaIncrement ∉ (extractTranscriptRun avail acq tr md g).2 := by
  rcases extractTranscriptRun_trace avail acq tr md g with h | h | h | h <;> rw [h] <;> decide

/-- Mapping the verbatim field-copy function over segments is the
    identity. -/
theorem segMap_eta (l : List TranscriptSegment) :
    l.map (fun s => { start := s.start, «end» := s.«end», text := s.text }) = l := by
  induction l with
  | nil => rfl
  | cons h t ih => simp [ih]

/-! ## C5 — the full_text / segment-join invariant -/

/-- C5 counterexample: the first transcription variant returns the
    engine text verbatim as `full_text`; with engine text `"ab"` and
    segment texts `"a"`, `"b"` the claimed join identity
    `full_text == segments.map(s => s.text).join(" ")` fails
    immediately after construction. -/
theorem join_invariant_counterexample :
    transcribeAudioV1 (.ok ⟨"ab", none, none, some [⟨0, 1, "a"⟩, ⟨1, 2, "b"⟩]⟩)
      = .ok ⟨"ab", [⟨0, 1, "a"⟩, ⟨1, 2, "b"⟩]⟩
    ∧ joinSegmentTexts [⟨0, 1, "a"⟩, ⟨1, 2, "b"⟩] = "a b"
    ∧ ("ab" : String) ≠ "a b" :=
  ⟨rfl, rfl, by decide⟩

/-- C5 (amended): `full_text` is the engine-reported text verbatim
    (empty when absent) — it is not rebuilt from the segments, so the
    join identity is not established at construction; it does hold for
    the orchestrator's single-segment fallback transcript. -/
theorem full_text_is_engine_text :
    (∀ response : EngineResponse,
      (normalizeResponseV1 response).text = response.text)
    ∧ (∀ e : String,
      (fallbackTranscript e).text = joinSegmentTexts (fallbackTranscript e).segments) := by
  exact ⟨fun r => rfl, fun e => rfl⟩

/-! ## C6 — the URL resolver -/

/-- C6 counterexample: a canonical Bilibili BV URL is classified as
    `youtube`, rejected by validation, and yields an empty id — the
    resolver neither returns platform `bilibili` nor a non-empty
    canonical id, and the failure is not an `UnsupportedPlatform`
    error. -/
theorem resolver_bilibili_counterexample :
    detectPlatform "https://www.bilibili.com/video/BV1234567890" = VideoPlatform.youtube
    ∧ validateVideoUrl "https://www.bilibili.com/video/BV1234567890"
        = ⟨false, some "Invalid YouTube URL format"⟩
    ∧ extractVideoId "https://www.bilibili.com/video/BV1234567890" = "" :=
  ⟨rfl, rfl, rfl⟩

/-- C6 (amended): `detectPlatform` classifies every URL as `youtube`;
    only YouTube watch URLs (with a `v` query parameter) and
    `youtu.be` short links validate and yield ids; embed URLs,
    Bilibili URLs and Redbook URLs are all rejected as
    "Invalid YouTube URL format" (never as an unsupported-platform
    error), and syntactically invalid input is rejected as
    "Invalid URL format". -/
theorem resolver_youtube_only :
    (∀ url : String, detectPlatform url = VideoPlatform.youtube)
    ∧ validateVideoUrl "https://www.youtube.com/watch?v=dQw4w9WgXcQ" = ⟨true, none⟩
    ∧ extractVideoId "https://www.youtube.com/watch?v=dQw4w9WgXcQ" = "dQw4w9WgXcQ"
    ∧ validateVideoUrl "https://youtu.be/dQw4w9WgXcQ" = ⟨true, none⟩
    ∧ extractVideoId "https://youtu.be/dQw4w9WgXcQ" = "dQw4w9WgXcQ"
    ∧ validateVideoUrl "https://www.youtube.com/embed/dQw4w9WgXcQ"
        = ⟨false, some "Invalid YouTube URL format"⟩
    ∧ validateVideoUrl "https://www.bilibili.com/video/BV1234567890"
        = ⟨false, some "Invalid YouTube URL format"⟩
    ∧ validateVideoUrl "https://www.xiaohongshu.com/explore/abc123"
        = ⟨false, some "Invalid YouTube URL format"⟩
    ∧ validateVideoUrl "not a url" = ⟨false, some "Invalid URL format"⟩ :=
  ⟨detectPlatform_eq_youtube, rfl, rfl, rfl, rfl, rfl, rfl, rfl, rfl⟩

/-! ## C9 — srt/vtt export rendering -/

/-- C9 counterexample: the srt blocks are joined with a single
    newline, so the final block is not terminated by a blank line —
    the output for the two-segment scenario is not the claimed string
    in which each block ends with a blank line. -/
theorem srt_export_counterexample :
    formatTranscript "Hi there" [⟨0, 5, "Hi"⟩, ⟨5, 10, "there"⟩] .srt ""
      ≠ "1\n00:00:00,000 --> 00:00:05,000\nHi\n\n2\n00:00:05,000 --> 00:00:10,000\nthere\n\n" := by
  decide

/-- C9 (amended): time codes are zero-padded with hours included even
    when zero, srt with the comma form and vtt with the period form;
    exporting the two-segment scenario to srt yields the two blocks
    separated by a blank line, with the final block terminated by a
    single newline (no trailing blank line). -/
theorem srt_vtt_rendering :
    formatTranscript "Hi there" [⟨0, 5, "Hi"⟩, ⟨5, 10, "there"⟩] .srt ""
      = "1\n00:00:00,000 --> 00:00:05,000\nHi\n\n2\n00:00:05,000 --> 00:00:10,000\nthere\n"
    ∧ formatTranscript "Hi there" [⟨0, 5, "Hi"⟩, ⟨5, 10, "there"⟩] .vtt ""
      = "WEBVTT\n\n00:00:00.000 --> 00:00:05.000\nHi\n\n00:00:05.000 --> 00:00:10.000\nthere\n"
    ∧ formatSRTTime (7323/2 : ℚ) = "01:01:01,500"
    ∧ formatVTTTime (7323/2 : ℚ) = "01:01:01.500" :=
  ⟨rfl, rfl, rfl, rfl⟩

/-! ## C10 — the metadata probe is total with fabricated fallback -/

/-- C10: `extractVideoInfo` never propagates the downloader's error —
    on any failure it returns fabricated metadata with
    `duration = 300`, the platform-derived title (always
    "YouTube Video", since `detectPlatform` is constant) and the
    placeholder thumbnail; on success it returns the downloader's
    metadata unchanged. -/
theorem extractVideoInfo_total_and_fallback :
    (∀ (url : String) (info : VideoInfo), extractVideoInfo url (.ok info) = info)
    ∧ (∀ url e : String,
        extractVideoInfo url (.error e)
          = { title := platformTitle (detectPlatform url), duration := 300,
              thumbnail := some "https://via.placeholder.com/320x180?text=Video" })
    ∧ (∀ url e : String, (extractVideoInfo url (.error e)).title = "YouTube Video") := by
  refine ⟨fun url i => rfl, fun url e => rfl, fun url e => ?_⟩
  show platformTitle (detectPlatform url) = "YouTube Video"
  rw [detectPlatform_eq_youtube]
  rfl

/-! ## C2 — artifact release on every exit path, idempotent cleanup -/

/-- C2: on every run whose acquisition succeeded, the orchestrator's
    `finally` block invokes `cleanup` on every exit path (success,
    transcription failure — which includes the size-limit rejection
    thrown inside `transcribeAudio` — and the guest duration
    rejection); and the cleanup closure never raises and is idempotent
    (a second call, or a call on an already-deleted path, is a
    no-op). -/
theorem release_runs_on_every_exit_and_is_idempotent :
    (∀ (avail : Bool) (acquire : Except String AudioArtifactData)
        (transcribe : Except String TranscriptionResultV2) (maxDuration : ℚ) (isGuest : Bool),
      Ev.acquireSuccess ∈ (extractTranscriptRun avail acquire transcribe maxDuration isGuest).2 →
        Ev.cleanup ∈ (extractTranscriptRun avail acquire transcribe maxDuration isGuest).2)
    ∧ (∀ (fs : Finset String) (audioPath : String), ∃ fs₂,
        cleanupClosure audioPath fs = .ok fs₂ ∧ cleanupClosure audioPath fs₂ = .ok fs₂) := by
  constructor
  · intro avail acquire transcribe maxDuration isGuest h
    rcases extractTranscriptRun_trace avail acquire transcribe maxDuration isGuest with
      h4 | h4 | h4 | h4 <;> rw [h4] at h ⊢ <;> revert h <;> decide
  · intro fs audioPath
    by_cases hp : audioPath ∈ fs
    · refine ⟨fs.erase audioPath, ?_, ?_⟩
      · simp [cleanupClosure, existsSyncF, unlinkSyncF, hp]
      · simp [cleanupClosure, existsSyncF]
    · exact ⟨fs, by simp [cleanupClosure, existsSyncF, hp],
        by simp [cleanupClosure, existsSyncF, hp]⟩

/-- C2 witness: a concrete transcription-failure run releases the
    artifact, and the cleanup closure of a one-file filesystem is
    idempotent. -/
theorem release_runs_on_every_exit_and_is_idempotent_witness :
    Ev.cleanup ∈ (extractTranscriptRun true (.ok ⟨"/tmp/audio0.mp3", 50, "T"⟩)
        (.error "InvalidCredentials") 600 true).2
    ∧ ∃ fs₂, cleanupClosure "/tmp/audio0.mp3" {"/tmp/audio0.mp3"} = .ok fs₂
        ∧ cleanupClosure "/tmp/audio0.mp3" fs₂ = .ok fs₂ :=
  ⟨release_runs_on_every_exit_and_is_idempotent.1 true (.ok ⟨"/tmp/audio0.mp3", 50, "T"⟩)
      (.error "InvalidCredentials") 600 true (by decide),
   release_runs_on_every_exit_and_is_idempotent.2 {"/tmp/audio0.mp3"} "/tmp/audio0.mp3"⟩

/-! ## C3 — the maxDuration option of the transcription adapter -/

/-- C3 counterexample: with `maxDuration := 60` the engine segment
    starting at 100 — at or beyond the limit — is returned verbatim,
    whereas the claimed truncation (kept exactly when start < limit,
    last end clamped) would drop it. -/
theorem maxDuration_truncation_counterexample :
    transcribeAudioV2 "/tmp/audio0.mp3" true 1000 ⟨none, none, none, some 60⟩
        (.ok ⟨"late", some "en", some 110, some [⟨100, 110, "late"⟩]⟩)
      = .ok ⟨"late", some "en", some 110, some [⟨100, 110, "late"⟩]⟩
    ∧ specTruncateSegments 60 [⟨100, 110, "late"⟩] = [] :=
  ⟨rfl, rfl⟩

/-- C3 (amended): the second `transcribeAudio` variant accepts
    `maxDuration` but never reads it — the result is identical for any
    two values of the option, and on the success path the transcript
    is the engine response verbatim (text, language, duration and
    segments), with no truncation, clamping or rebuilt full_text.
    Guest duration limiting is enforced instead by the orchestrator's
    pre-transcription duration check. -/
theorem transcribeAudioV2_ignores_maxDuration :
    (∀ (audioPath : String) (fileExists : Bool) (sizeBytes : ℕ)
        (language prompt : Option String) (temperature mdA mdB : Option ℚ)
        (engine : Except String EngineResponse),
      transcribeAudioV2 audioPath fileExists sizeBytes ⟨language, prompt, temperature, mdA⟩ engine
        = transcribeAudioV2 audioPath fileExists sizeBytes ⟨language, prompt, temperature, mdB⟩ engine)
    ∧ (∀ (audioPath : String) (sizeBytes : ℕ) (options : TranscribeOptions)
        (response : EngineResponse),
      ¬ 25 < (sizeBytes : ℚ) / (1024 * 1024) →
      supportedFormatsV2.contains (jsToLower (extname audioPath)) = true →
      transcribeAudioV2 audioPath true sizeBytes options (.ok response)
        = .ok { text := response.text, language := response.language,
                duration := response.duration, segments := response.segments }) := by
  constructor
  · intro audioPath fileExists sizeBytes language prompt temperature mdA mdB engine
    rfl
  · intro audioPath sizeBytes options response h1 h2
    unfold transcribeAudioV2
    simp only [h1, h2, if_false, if_neg, Bool.true_eq_false, reduceIte, ite_false]
    cases hs : response.segments <;> simp [h1, h2, segMap_eta, hs]

/-- C3 witness: a concrete in-bounds mp3 with a supplied
    `maxDuration` yields the verbatim engine transcript. -/
theorem transcribeAudioV2_ignores_maxDuration_witness :
    transcribeAudioV2 "/tmp/audio0.mp3" true 1000 ⟨none, none, none, some 60⟩
        (.ok ⟨"hello", none, some 3, some [⟨0, 3, "hello"⟩]⟩)
      = .ok ⟨"hello", none, some 3, some [⟨0, 3, "hello"⟩]⟩ :=
  transcribeAudioV2_ignores_maxDuration.2 "/tmp/audio0.mp3" 1000 ⟨none, none, none, some 60⟩
    ⟨"hello", none, some 3, some [⟨0, 3, "hello"⟩]⟩ (by norm_num) (by decide)

/-! ## C4 — fallback transcript on transcription failure -/

/-- C4: when transcription fails on a guest run that passed the
    duration check, the orchestrator returns (never throws) a
    transcript with exactly one segment, whose text states that
    extraction failed and embeds the literal underlying error message,
    the segment text equals the full text, and the artifact is still
    released. -/
theorem fallback_on_transcription_error (artifact : AudioArtifactData) (e : String)
    (maxDuration : ℚ) (h : ¬ maxDuration < artifact.duration) :
    ((extractTranscriptRun true (.ok artifact) (.error e) maxDuration true).1.segments.length = 1)
    ∧ (∃ pre post,
        (extractTranscriptRun true (.ok artifact) (.error e) maxDuration true).1.text
          = pre ++ e ++ post)
    ∧ (∀ s ∈ (extractTranscriptRun true (.ok artifact) (.error e) maxDuration true).1.segments,
        s.text = (extractTranscriptRun true (.ok artifact) (.error e) maxDuration true).1.text)
    ∧ Ev.cleanup ∈ (extractTranscriptRun true (.ok artifact) (.error e) maxDuration true).2 := by
  have hrun : extractTranscriptRun true (.ok artifact) (.error e) maxDuration true
      = (fallbackTranscript e,
         [.availCheck, .acquireAttempt, .acquireSuccess, .transcribeAttempt, .cleanup]) := by
    unfold extractTranscriptRun
    simp [h]
  rw [hrun]
  refine ⟨rfl,
    ⟨"Transcript extraction failed: ",
     ". This is a mock transcript for demonstration purposes.", rfl⟩, ?_, ?_⟩
  · intro s hs
    simp [fallbackTranscript] at hs ⊢
    rw [hs]
  · show Ev.cleanup ∈
      [Ev.availCheck, Ev.acquireAttempt, Ev.acquireSuccess, Ev.transcribeAttempt, Ev.cleanup]
    decide

/-- C4 witness: a concrete `InvalidCredentials` failure produces the
    single-segment fallback containing the message, and the artifact
    is released. -/
theorem fallback_on_transcription_error_witness :
    ((extractTranscriptRun true (.ok ⟨"/tmp/audio1.mp3", 50, "T"⟩)
        (.error "InvalidCredentials") 600 true).1.segments.length = 1)
    ∧ (∃ pre post,
        (extractTranscriptRun true (.ok ⟨"/tmp/audio1.mp3", 50, "T"⟩)
          (.error "InvalidCredentials") 600 true).1.text = pre ++ "InvalidCredentials" ++ post)
    ∧ (∀ s ∈ (extractTranscriptRun true (.ok ⟨"/tmp/audio1.mp3", 50, "T"⟩)
          (.error "InvalidCredentials") 600 true).1.segments,
        s.text = (extractTranscriptRun true (.ok ⟨"/tmp/audio1.mp3", 50, "T"⟩)
          (.error "InvalidCredentials") 600 true).1.text)
    ∧ Ev.cleanup ∈ (extractTranscriptRun true (.ok ⟨"/tmp/audio1.mp3", 50, "T"⟩)
        (.error "InvalidCredentials") 600 true).2 :=
  fallback_on_transcription_error ⟨"/tmp/audio1.mp3", 50, "T"⟩ "InvalidCredentials" 600 (by decide)

/-! ## C8 — acquirer output verification and partial-file cleanup -/

/-- C8 counterexample: a downloader that exits 0 leaving a zero-byte
    file yields a successful artifact — the acquirer checks only
    existence, not non-emptiness, so the claimed rejection of
    zero-byte files does not happen. -/
theorem zero_byte_download_counterexample :
    (extractAudio "/tmp/audio2.mp3" (.ok ⟨some "T", some 700⟩) (.ok 0) (some 0)).result
      = .ok ⟨"/tmp/audio2.mp3", 700, "T"⟩
    ∧ (extractAudio "/tmp/audio2.mp3" (.ok ⟨some "T", some 700⟩) (.ok 0) (some 0)).finalFile
      = some 0 :=
  ⟨rfl, rfl⟩

/-- C8 (amended): the acquirer verifies after the downloader returns
    that the output file exists — a missing file is an error, but a
    zero-byte file is accepted as success — and on every failing exit
    any partially written file at the chosen temp path is deleted
    before the error propagates. -/
theorem extractAudio_checks_existence_and_deletes_partials :
    (∀ (audioPath : String) (info : DownloaderInfo),
      (extractAudio audioPath (.ok info) (.ok 0) none).result
        = .error "Audio file was not created")
    ∧ (∀ (audioPath : String) (info : Except String DownloaderInfo)
        (execResult : Except String ℤ) (written : Option ℕ) (e : String),
      (extractAudio audioPath info execResult written).result = .error e →
      (extractAudio audioPath info execResult written).finalFile = none) := by
  constructor
  · intro audioPath info
    rfl
  · intro audioPath info execResult written e h
    cases info with
    | error e2 => rfl
    | ok i =>
      cases execResult with
      | error e2 => rfl
      | ok code =>
        by_cases hc : code ≠ 0
        · simp [extractAudio, hc]
        · cases written with
          | none => simp [extractAudio, hc]
          | some sz => simp [extractAudio, hc] at h

/-- C8 witness: a run with no output file errors, and a failed
    metadata call leaves no file behind. -/
theorem extractAudio_checks_existence_and_deletes_partials_witness :
    (extractAudio "/tmp/audio3.mp3" (.ok ⟨some "T", some 9⟩) (.ok 0) none).result
      = .error "Audio file was not created"
    ∧ (extractAudio "/tmp/audio3.mp3" (.error "network down") (.ok 0) (some 5)).finalFile
      = none :=
  ⟨extractAudio_checks_existence_and_deletes_partials.1 "/tmp/audio3.mp3" ⟨some "T", some 9⟩,
   extractAudio_checks_existence_and_deletes_partials.2 "/tmp/audio3.mp3" (.error "network down")
     (.ok 0) (some 5) "network down" rfl⟩

/-! ## C1 — when the guest quota is incremented -/

/-- C1 counterexample: an edge-function guest run whose processing
    fails before any transcription (here the metadata fetch) still
    returns a 200 payload carrying the fallback mock extraction, and
    the usage update is still performed — the increment is not
    conditioned on a genuine (non-fallback) transcript, and a run
    failing at acquisition does not leave the counter unchanged. -/
theorem quota_incremented_on_fallback_run :
    (extractGuestEdge "https://youtu.be/dQw4w9WgXcQ" 0
        (.error "Failed to get video info: 500")).1
      = .ok (edgeFallbackExtraction "Failed to get video info: 500") 2
    ∧ Ev.quotaIncrement ∈ (extractGuestEdge "https://youtu.be/dQw4w9WgXcQ" 0
        (.error "Failed to get video info: 500")).2 :=
  ⟨rfl, by decide⟩

/-- C1 (amended): the extract-guest edge function updates the usage
    counter exactly when the request carries a URL and passes the
    daily-limit check — independently of whether processing succeeded,
    so fallback runs also consume quota; only the missing-URL and
    policy-check rejections leave the counter unchanged.  The express
    guest route never increments at all: every run that passes
    validation and the policy check throws a TypeError inside
    `processGuestVideo(video_url, clientIP)` and is answered with a
    500, so its increment call is dead code. -/
theorem quota_increment_behavior :
    (∀ (video_url : String) (currentCount : ℕ) (processing : Except String EdgeProcessed),
      Ev.quotaIncrement ∈ (extractGuestEdge video_url currentCount processing).2
        ↔ video_url ≠ "" ∧ currentCount < 3)
    ∧ (∀ (video_url : String) (usage : GuestUsage),
      Ev.quotaIncrement ∉ (extractGuestRoute video_url usage).2) := by
  constructor
  · intro video_url currentCount processing
    unfold extractGuestEdge
    by_cases h1 : video_url = ""
    · simp [h1]
    · by_cases h2 : 3 ≤ currentCount
      · simp [h1, h2, Nat.not_lt.mpr h2]
      · simp [h1, h2, Nat.lt_of_not_le h2]
  · intro video_url usage
    unfold extractGuestRoute
    by_cases h1 : video_url = ""
    · simp [h1]
    · by_cases h2 : (validateVideoUrl video_url).isValid = false
      · simp [h1, h2]
      · by_cases h3 : usage.can_extract = false
        · simp [h1, h2, h3]
        · simp [h1, h2, h3]

/-! ## C7 — the guest duration rejection -/

/-- C7 counterexample: a guest submission of a valid URL with
    remaining quota (the probed duration of the video — e.g. 700
    seconds — never enters, because no probe happens) is answered with
    the 500 from the TypeError, not with the claimed DurationExceeded
    result carrying the duration and the cap, and no quota is
    consumed. -/
theorem duration_rejection_unreachable_counterexample :
    (extractGuestRoute "https://youtu.be/dQw4w9WgXcQ" ⟨true, 1, "tomorrow"⟩).1
      = .serverError "progressCallback is not a function"
    ∧ (extractGuestRoute "https://youtu.be/dQw4w9WgXcQ" ⟨true, 1, "tomorrow"⟩).1
      ≠ .durationLimited "Video duration exceeds 1-minute limit for guest users" 700 60
    ∧ Ev.quotaIncrement ∉
        (extractGuestRoute "https://youtu.be/dQw4w9WgXcQ" ⟨true, 1, "tomorrow"⟩).2 :=
  ⟨rfl, by decide, by decide⟩

/-- C7 (amended): the express guest route never produces a
    DurationExceeded result — every guest run that passes validation
    and the policy check is answered with the 500 from the TypeError,
    before its 60-second check, and consumes no quota.  The only live
    duration-cap logic is the guest check inside `extractTranscript`,
    which fires only after the full audio download (the trace already
    contains a completed acquisition) and whose throw the catch-all
    converts into a fallback transcript, not an error result. -/
theorem duration_rejection_behavior :
    (∀ (video_url : String) (usage : GuestUsage),
      video_url ≠ "" → (validateVideoUrl video_url).isValid = true →
      usage.can_extract = true →
      (extractGuestRoute video_url usage).1
          = .serverError "progressCallback is not a function"
        ∧ Ev.quotaIncrement ∉ (extractGuestRoute video_url usage).2)
    ∧ (∀ (artifact : AudioArtifactData) (transcribe : Except String TranscriptionResultV2)
        (maxDuration : ℚ), maxDuration < artifact.duration →
      extractTranscriptRun true (.ok artifact) transcribe maxDuration true
        = (fallbackTranscript (durationLimitMsg artifact.duration maxDuration),
           [.availCheck, .acquireAttempt, .acquireSuccess, .cleanup])) := by
  constructor
  · intro video_url usage h1 h2 h3
    unfold extractGuestRoute
    simp [h1, h2, h3]
  · intro artifact transcribe maxDuration h
    unfold extractTranscriptRun
    simp [h]

/-- C7 witness: a valid URL with remaining quota receives the 500 with
    no increment, and a 700-second downloaded artifact under the
    600-second cap triggers the post-download fallback with the
    artifact released. -/
theorem duration_rejection_behavior_witness :
    ((extractGuestRoute "https://www.youtube.com/watch?v=dQw4w9WgXcQ" ⟨true, 1, "tomorrow"⟩).1
        = .serverError "progressCallback is not a function"
      ∧ Ev.quotaIncrement ∉
          (extractGuestRoute "https://www.youtube.com/watch?v=dQw4w9WgXcQ"
            ⟨true, 1, "tomorrow"⟩).2)
    ∧ extractTranscriptRun true (.ok ⟨"/tmp/audio5.mp3", 700, "Long video"⟩)
          (.error "unused") 600 true
        = (fallbackTranscript (durationLimitMsg 700 600),
           [.availCheck, .acquireAttempt, .acquireSuccess, .cleanup]) :=
  ⟨duration_rejection_behavior.1 "https://www.youtube.com/watch?v=dQw4w9WgXcQ"
      ⟨true, 1, "tomorrow"⟩ (by decide) (by decide) rfl,
   duration_rejection_behavior.2 ⟨"/tmp/audio5.mp3", 700, "Long video"⟩ (.error "unused") 600
      (by decide)⟩

end Evt
